import Mathlib

/-! Formal model of the itinerary generation engine of the AI travel agent
    repository, together with proofs of its key behavioural properties.
    The definitions below are a shallow embedding of the Python source
    (src/itinenary_generator.py and the submit handler of main.py):
    randomness from the random module is modelled as an explicit stream of
    natural numbers, Python floats are modelled as rationals, Python ints
    as Int, and calendar dates as natural-number day indices (the source
    only ever steps dates one day at a time and formats them with an
    injective date format, so the per-day key structure is preserved). -/

/-- Randomness source: a stream of raw draws plus a cursor.  Each call into
    the random module consumes one stream element. -/
structure RandState where
  stream : Nat → Nat
  idx : Nat

def nextNat (s : RandState) : Nat × RandState :=
  (s.stream s.idx, { stream := s.stream, idx := s.idx + 1 })

/-- Model of random.randint lo hi (inclusive on both ends).  The raw draw is
    reduced modulo the size of the range, so the result lies in [lo, hi]
    whenever lo <= hi, for every stream. -/
def randint (lo hi : Int) (s : RandState) : Int × RandState :=
  let p := nextNat s
  (lo + ((p.1 % (hi - lo + 1).toNat : Nat) : Int), p.2)

/-- Model of random.choice on a nonempty list. -/
def pychoice {α : Type} [Inhabited α] (l : List α) (s : RandState) : α × RandState :=
  let p := nextNat s
  (l.getD (p.1 % l.length) default, p.2)

/-- Model of random.random : a rational in [0, 1).  The granularity of the
    draw is irrelevant to every property proved below. -/
def pyrandom (s : RandState) : ℚ × RandState :=
  let p := nextNat s
  (((p.1 % 1000 : Nat) : ℚ) / 1000, p.2)

/-- Model of the Python int() conversion applied to a float: truncation
    toward zero. -/
def pyInt (q : ℚ) : Int := if 0 ≤ q then ⌊q⌋ else ⌈q⌉

def charsAtStart : List Char → List Char → Bool
  | [], _ => true
  | _ :: _, [] => false
  | a :: as, b :: bs => a = b && charsAtStart as bs

def charsContain (needle : List Char) : List Char → Bool
  | [] => needle.isEmpty
  | c :: t => charsAtStart needle (c :: t) || charsContain needle t

/-- Model of the Python substring test (needle in hay). -/
def strContains (hay needle : String) : Bool := charsContain needle.data hay.data

/-- Model of sep.join(parts). -/
def pyJoin (sep : String) : List String → String
  | [] => ""
  | [a] => a
  | a :: b :: rest => a ++ sep ++ pyJoin sep (b :: rest)

/-! ## Weather/Risk Oracle (ItineraryGenerator._get_weather_forecast and
       ItineraryGenerator._check_natural_disasters) -/

structure DayForecast where
  condition : String
  high : Int
  low : Int
  recommendations : List String

def weather_conditions : List String :=
  ["Sunny", "Partly Cloudy", "Cloudy", "Rainy", "Stormy"]

/-- The temperatures dict of _get_weather_forecast.  Every condition drawn by
    the oracle is a key, so the default branch is unreachable in the model,
    exactly as a KeyError is unreachable in the source. -/
def temperatures (c : String) : Int × Int :=
  if c = "Sunny" then (75, 95)
  else if c = "Partly Cloudy" then (70, 85)
  else if c = "Cloudy" then (65, 80)
  else if c = "Rainy" then (60, 75)
  else if c = "Stormy" then (55, 70)
  else (0, 0)

def get_weather_recommendations (condition : String) : List String :=
  if condition = "Sunny" then
    ["Perfect day for outdoor activities",
     "Do not forget sunscreen and a hat",
     "Great day for beach or water activities"]
  else if condition = "Partly Cloudy" then
    ["Good day for outdoor activities",
     "Might want to bring a light jacket",
     "Comfortable conditions for sightseeing"]
  else if condition = "Cloudy" then
    ["Good day for outdoor activities without strong sun",
     "Might want to have indoor alternatives planned",
     "Comfortable temperatures for walking tours"]
  else if condition = "Rainy" then
    ["Plan indoor activities or bring rain gear",
     "Consider museums, galleries, or indoor markets",
     "Check if outdoor activities have rain dates"]
  else if condition = "Stormy" then
    ["Avoid outdoor activities if possible",
     "Consider rescheduling outdoor plans",
     "Have indoor backup plans ready"]
  else ["Check local weather advisories"]

/-- The per-day loop of _get_weather_forecast.  One forecast entry per day,
    keyed by the day index (the model of the formatted date string). -/
def forecastLoop : Nat → Nat → RandState → List (Nat × DayForecast) × RandState
  | 0, _, s => ([], s)
  | n + 1, date, s =>
    let cp := pychoice weather_conditions s
    let tr := temperatures cp.1
    let hip := randint tr.1 tr.2 cp.2
    let lop := randint (tr.1 - 15) (tr.2 - 10) hip.2
    let df : DayForecast :=
      { condition := cp.1, high := hip.1, low := lop.1,
        recommendations := get_weather_recommendations cp.1 }
    let rest := forecastLoop n (date + 1) lop.2
    ((date, df) :: rest.1, rest.2)

/-- Model of ItineraryGenerator._get_weather_forecast.  The destination is
    unused, exactly as in the source. -/
def get_weather_forecast (destination : String) (start_date : Nat) (num_days : Nat)
    (s : RandState) : List (Nat × DayForecast) × RandState :=
  forecastLoop num_days start_date s

def disasters : List String :=
  ["No significant natural disasters reported",
   "Minor earthquake activity reported in the region",
   "Tropical storm warning in effect",
   "Wildfire risk elevated due to dry conditions",
   "Flood watch in effect for low-lying areas"]

def disaster_prone : List String :=
  ["Japan", "Indonesia", "Philippines", "California", "Florida"]

/-- Model of ItineraryGenerator._check_natural_disasters.  The Python and
    operator short-circuits, so random.random is consumed only when the
    destination matches a disaster-prone marker. -/
def check_natural_disasters (destination : String) (start_date : Nat)
    (s : RandState) : List String × RandState :=
  let hp :=
    if disaster_prone.any (fun p => strContains destination p) then
      let rp := pyrandom s
      (decide (rp.1 > (7 : ℚ) / 10), rp.2)
    else (false, s)
  if hp.1 then
    let dp := pychoice (disasters.drop 1) hp.2
    ([dp.1], dp.2)
  else (["No significant natural disasters reported"], hp.2)

/-! ## Data model (the itinerary JSON object shape) -/

structure Activity where
  name : String
  description : String
  start_time : String
  end_time : String
  location : String
  cost : Int
  source : String
  weather_alternative : String

structure FlightOption where
  airline : String
  price : Int
  duration : String
  dates : String
  source : String

structure AccommodationOption where
  name : String
  type' : String
  price_per_night : Int
  total_price : Int
  rating : ℚ
  location : String
  source : String

structure Itinerary where
  id : String
  title : String
  focus : String
  description : String
  total_cost : Int
  weather_considerations : String
  safety_recommendations : String
  flight_options : List FlightOption
  accommodation_options : List AccommodationOption
  daily_itinerary : List (String × List Activity)
  unique_selling_point : String

/-! ## Fallback Itinerary Synthesizer
       (ItineraryGenerator._generate_fallback_itineraries) -/

def focuses : List String :=
  ["Luxury", "Budget", "Adventure", "Cultural", "Relaxation", "Food"]

def airlines : List String :=
  ["Delta", "United", "American", "Southwest", "JetBlue"]

def hotels : List String :=
  ["Marriott", "Hilton", "Hyatt", "InterContinental", "Holiday Inn"]

/-- The keys of the activities dict, in source order. -/
def activityKeys : List String := ["Adventure", "Cultural", "Relaxation", "Food"]

def activityPool (t : String) : List String :=
  if t = "Adventure" then ["Zip Lining", "Hiking", "White Water Rafting", "Rock Climbing"]
  else if t = "Cultural" then ["Museum Tour", "Historical Site", "Local Market", "Traditional Show"]
  else if t = "Relaxation" then ["Spa Day", "Beach Time", "Yoga Session", "Meditation"]
  else if t = "Food" then ["Cooking Class", "Food Tour", "Wine Tasting", "Local Restaurant"]
  else []

/-- The indoor_alternatives dict, as a lookup. -/
def indoor_alternatives (name : String) : Option String :=
  if name = "Zip Lining" then some "Indoor rock climbing"
  else if name = "Hiking" then some "Museum visit"
  else if name = "White Water Rafting" then some "Indoor water park"
  else if name = "Rock Climbing" then some "Indoor rock climbing gym"
  else if name = "Beach Time" then some "Spa day"
  else if name = "Yoga Session" then some "Indoor yoga studio"
  else if name = "Meditation" then some "Wellness center visit"
  else none

/-- The weather_alternative assignment of the activity loop: the mapped
    indoor alternative when the name is a key of indoor_alternatives and the
    forecast condition for the day is Rainy or Stormy, empty otherwise. -/
def waltOf (wcond aname : String) : String :=
  match indoor_alternatives aname with
  | some alt => if wcond == "Rainy" || wcond == "Stormy" then alt else ""
  | none => ""

/-- The condition the activity loop reads for a given day:
    weather_forecast.get(date_str, default dict with condition Sunny). -/
def dayCondition (wf : List (Nat × DayForecast)) (date : Nat) : String :=
  match wf.find? (fun p => p.1 == date) with
  | some p => p.2.condition
  | none => "Sunny"

/-- One activity of the inner for-j-in-range(2) loop.  Draw order follows the
    source: activity type (a draw only when the focus is not an activities
    key), activity name, then the cost inside the dict literal. -/
def genActivity (dest focus wcond : String) (j : Nat) (s : RandState) :
    Activity × RandState :=
  let tp := if activityKeys.contains focus then (focus, s) else pychoice activityKeys s
  let np := pychoice (activityPool tp.1) tp.2
  let cp := randint 20 100 np.2
  ({ name := np.1,
     description := "Enjoy a " ++ np.1.toLower ++ " experience in " ++ dest,
     start_time := toString (9 + j * 4) ++ ":00",
     end_time := toString (12 + j * 4) ++ ":00",
     location := dest ++ " City Center",
     cost := cp.1,
     source := "Fallback data",
     weather_alternative := waltOf wcond np.1 }, cp.2)

/-- The two activities built for one day. -/
def genDayActivities (dest focus wcond : String) (s : RandState) :
    List Activity × RandState :=
  let a0 := genActivity dest focus wcond 0 s
  let a1 := genActivity dest focus wcond 1 a0.2
  ([a0.1, a1.1], a1.2)

/-- The per-day loop (for day in range(1, num_days + 1)), carrying the
    1-based day label and the running date. -/
def daysLoop (dest focus : String) (wf : List (Nat × DayForecast)) :
    Nat → Nat → Nat → RandState → List (String × List Activity) × RandState
  | _, 0, _, s => ([], s)
  | day, n + 1, date, s =>
    let acts := genDayActivities dest focus (dayCondition wf date) s
    let rest := daysLoop dest focus wf (day + 1) n (date + 1) acts.2
    (("Day " ++ toString day, acts.1) :: rest.1, rest.2)

/-- The budget-fitting step (lines 313 to 320 of the source): compute the
    unscaled total; when it exceeds 0.9 x budget, scale both prices by
    (0.9 x budget) / total, truncate to integers, and recompute the total.
    Returns (flight price, nightly price, total cost). -/
def budgetFit (budget : Int) (nd : Nat) (fp0 hp0 : Int) : Int × Int × Int :=
  let tc0 : Int := fp0 + hp0 * (nd : Int)
  if ((tc0 : ℚ)) > (budget : ℚ) * (9 / 10) then
    let scale : ℚ := ((budget : ℚ) * (9 / 10)) / ((tc0 : ℚ))
    let fp1 := pyInt ((fp0 : ℚ) * scale)
    let hp1 := pyInt ((hp0 : ℚ) * scale)
    (fp1, hp1, fp1 + hp1 * (nd : Int))
  else (fp0, hp0, tc0)

/-- One iteration of the itinerary loop of _generate_fallback_itineraries.
    Draw order follows the source exactly: focus, flight price, nightly
    price, then inside the dict literal the unique id (uuid4, modelled as a
    fresh token from the randomness source), airline, the two duration
    draws, hotel brand, rating (uniform in [3.5, 5.0] rounded to one
    decimal, modelled at tenth granularity), and finally the day loop. -/
def genOneItinerary (dest : String) (nd : Nat) (prefs : String) (budget : Int)
    (sd : Nat) (wf : List (Nat × DayForecast)) (alerts : List String)
    (s : RandState) : Itinerary × RandState :=
  let cp := pychoice focuses s
  let fpp := randint 200 600 cp.2
  let hpp := randint 80 300 fpp.2
  let fit := budgetFit budget nd fpp.1 hpp.1
  let up := nextNat hpp.2
  let airp := pychoice airlines up.2
  let dhp := randint 2 8 airp.2
  let dmp := randint 0 59 dhp.2
  let hotp := pychoice hotels dmp.2
  let rtp := nextNat hotp.2
  let dayp := daysLoop dest cp.1 wf 1 nd sd rtp.2
  ({ id := "uuid-" ++ toString up.1,
     title := cp.1 ++ " " ++ dest ++ " Experience",
     focus := cp.1,
     description := "A " ++ toString nd ++ "-day " ++ cp.1.toLower ++
       " trip to " ++ dest ++ " focusing on " ++ prefs,
     total_cost := fit.2.2,
     weather_considerations :=
       "Check local weather forecast and plan accordingly. Have indoor alternatives ready.",
     safety_recommendations := pyJoin " " alerts,
     flight_options :=
       [{ airline := airp.1,
          price := fit.1,
          duration := toString dhp.1 ++ "h " ++ toString dmp.1 ++ "m",
          dates := "Flexible dates",
          source := "Fallback data" }],
     accommodation_options :=
       [{ name := hotp.1 ++ " " ++ dest,
          type' := "Hotel",
          price_per_night := fit.2.1,
          total_price := fit.2.1 * (nd : Int),
          rating := ((35 + (rtp.1 % 16) : Nat) : ℚ) / 10,
          location := "City Center",
          source := "Fallback data" }],
     daily_itinerary := dayp.1,
     unique_selling_point :=
       "Perfect for travelers seeking a " ++ cp.1.toLower ++ " experience" },
   dayp.2)

/-- The for-i-in-range(num_itineraries) loop. -/
def fallbackLoop (dest : String) (nd : Nat) (prefs : String) (budget : Int)
    (sd : Nat) (wf : List (Nat × DayForecast)) (alerts : List String) :
    Nat → RandState → List Itinerary × RandState
  | 0, s => ([], s)
  | n + 1, s =>
    let itp := genOneItinerary dest nd prefs budget sd wf alerts s
    let rest := fallbackLoop dest nd prefs budget sd wf alerts n itp.2
    (itp.1 :: rest.1, rest.2)

/-- Model of ItineraryGenerator._generate_fallback_itineraries: the weather
    forecast and the disaster alerts are computed once, before the
    itinerary loop, and shared by all generated itineraries. -/
def generate_fallback_itineraries (destination : String) (num_days : Nat)
    (preferences : String) (budget : Int) (num_itineraries : Nat)
    (start_date : Nat) (s : RandState) : List Itinerary × RandState :=
  let wfp := get_weather_forecast destination start_date num_days s
  let dap := check_natural_disasters destination start_date wfp.2
  fallbackLoop destination num_days preferences budget start_date wfp.1 dap.1
    num_itineraries dap.2

/-! ## JSON value model and a model of json.loads

    The parser follows the JSON grammar accepted by the Python json module
    on string input (strict integer part, required digits after the decimal
    point and in exponents, string escapes, strict rejection of unescaped
    control characters).  Two corners of the CPython implementation are knowingly
    absent, and no claim depends on them: the extension literals NaN,
    Infinity and -Infinity, and surrogate-pair combination in unicode
    escapes. -/

inductive Json where
  | null : Json
  | bool : Bool → Json
  | num : ℚ → Json
  | str : String → Json
  | arr : List Json → Json
  | obj : List (String × Json) → Json

def isWsChar (c : Char) : Bool := c = ' ' || c = '\t' || c = '\n' || c = '\r'

def skipWs : List Char → List Char
  | [] => []
  | c :: cs => if isWsChar c then skipWs cs else c :: cs

def dropLit : List Char → List Char → Option (List Char)
  | [], cs => some cs
  | _ :: _, [] => none
  | l :: ls, c :: cs => if c = l then dropLit ls cs else none

def hexVal (c : Char) : Option Nat :=
  if '0' ≤ c ∧ c ≤ '9' then some (c.toNat - 48)
  else if 'a' ≤ c ∧ c ≤ 'f' then some (c.toNat - 87)
  else if 'A' ≤ c ∧ c ≤ 'F' then some (c.toNat - 55)
  else none

/-- String-body scanner: everything after the opening quote, producing the
    decoded characters and the remainder after the closing quote. -/
def parseStringChars : List Char → Option (List Char × List Char)
  | [] => none
  | '"' :: rest => some ([], rest)
  | '\\' :: e :: rest =>
    if e = 'u' then
      match rest with
      | a :: b :: c :: d :: r =>
        match hexVal a, hexVal b, hexVal c, hexVal d with
        | some va, some vb, some vc, some vd =>
          match parseStringChars r with
          | some (l, r2) => some (Char.ofNat (((va * 16 + vb) * 16 + vc) * 16 + vd) :: l, r2)
          | none => none
        | _, _, _, _ => none
      | _ => none
    else
      match
        (if e = '"' then some '"'
         else if e = '\\' then some '\\'
         else if e = '/' then some '/'
         else if e = 'b' then some (Char.ofNat 8)
         else if e = 'f' then some (Char.ofNat 12)
         else if e = 'n' then some '\n'
         else if e = 'r' then some '\r'
         else if e = 't' then some '\t'
         else none) with
      | some d =>
        match parseStringChars rest with
        | some (l, r2) => some (d :: l, r2)
        | none => none
      | none => none
  | c :: rest =>
    if c.toNat < 32 then none
    else
      match parseStringChars rest with
      | some (l, r2) => some (c :: l, r2)
      | none => none

def takeDigits : List Char → List Char × List Char
  | [] => ([], [])
  | c :: cs =>
    if c.isDigit then
      let p := takeDigits cs
      (c :: p.1, p.2)
    else ([], c :: cs)

def digitsVal (ds : List Char) : Nat :=
  ds.foldl (fun acc c => 10 * acc + (c.toNat - 48)) 0

/-- Exponent suffix: ([eE][-+]?digits)?, applied to a base value. -/
def parseExpPart (q : ℚ) (cs : List Char) : Option (ℚ × List Char) :=
  match cs with
  | e :: rest =>
    if e = 'e' ∨ e = 'E' then
      let sp : (Bool × List Char) :=
        match rest with
        | '-' :: r => (true, r)
        | '+' :: r => (false, r)
        | r => (false, r)
      let dp := takeDigits sp.2
      if dp.1.isEmpty then none
      else
        let ex := digitsVal dp.1
        some ((if sp.1 then q / ((10 : ℚ) ^ ex) else q * ((10 : ℚ) ^ ex)), dp.2)
    else some (q, cs)
  | [] => some (q, cs)

/-- Fraction suffix: (.digits)?, then the exponent suffix. -/
def parseFracExp (ip : Nat) (neg : Bool) (cs : List Char) : Option (ℚ × List Char) :=
  let fp : Option (ℚ × List Char) :=
    match cs with
    | '.' :: r =>
      let dp := takeDigits r
      if dp.1.isEmpty then none
      else some ((ip : ℚ) + ((digitsVal dp.1 : Nat) : ℚ) / ((10 : ℚ) ^ dp.1.length), dp.2)
    | _ => some ((ip : ℚ), cs)
  match fp with
  | none => none
  | some (q, r) =>
    match parseExpPart q r with
    | none => none
    | some (q2, r2) => some ((if neg then -q2 else q2), r2)

/-- JSON number: -?(0|[1-9]digits)(.digits)?([eE][-+]?digits)?. -/
def parseNumber (cs : List Char) : Option (ℚ × List Char) :=
  let sp : (Bool × List Char) :=
    match cs with
    | '-' :: r => (true, r)
    | r => (false, r)
  match sp.2 with
  | [] => none
  | c :: rest =>
    if c = '0' then parseFracExp 0 sp.1 rest
    else if c.isDigit then
      let dp := takeDigits (c :: rest)
      parseFracExp (digitsVal dp.1) sp.1 dp.2
    else none

mutual

def parseValue (fuel : Nat) (cs : List Char) : Option (Json × List Char) :=
  match fuel with
  | 0 => none
  | fuel' + 1 =>
    match skipWs cs with
    | [] => none
    | c :: rest =>
      if c = 'n' then
        match dropLit ['u', 'l', 'l'] rest with
        | some r => some (Json.null, r)
        | none => none
      else if c = 't' then
        match dropLit ['r', 'u', 'e'] rest with
        | some r => some (Json.bool true, r)
        | none => none
      else if c = 'f' then
        match dropLit ['a', 'l', 's', 'e'] rest with
        | some r => some (Json.bool false, r)
        | none => none
      else if c = '"' then
        match parseStringChars rest with
        | some (l, r) => some (Json.str (String.mk l), r)
        | none => none
      else if c = '[' then
        match skipWs rest with
        | ']' :: r2 => some (Json.arr [], r2)
        | r2 =>
          match parseArrayRest fuel' r2 with
          | some (vs, r3) => some (Json.arr vs, r3)
          | none => none
      else if c = '{' then
        match skipWs rest with
        | '}' :: r2 => some (Json.obj [], r2)
        | r2 =>
          match parseObjRest fuel' r2 with
          | some (ms, r3) => some (Json.obj ms, r3)
          | none => none
      else if c = '-' ∨ c.isDigit then
        match parseNumber (c :: rest) with
        | some (q, r) => some (Json.num q, r)
        | none => none
      else none

def parseArrayRest (fuel : Nat) (cs : List Char) : Option (List Json × List Char) :=
  match fuel with
  | 0 => none
  | fuel' + 1 =>
    match parseValue fuel' cs with
    | none => none
    | some (v, r) =>
      match skipWs r with
      | ',' :: r2 =>
        match parseArrayRest fuel' r2 with
        | some (vs, r3) => some (v :: vs, r3)
        | none => none
      | ']' :: r2 => some ([v], r2)
      | _ => none

def parseObjRest (fuel : Nat) (cs : List Char) : Option (List (String × Json) × List Char) :=
  match fuel with
  | 0 => none
  | fuel' + 1 =>
    match skipWs cs with
    | '"' :: r =>
      match parseStringChars r with
      | none => none
      | some (key, r2) =>
        match skipWs r2 with
        | ':' :: r3 =>
          match parseValue fuel' r3 with
          | none => none
          | some (v, r4) =>
            match skipWs r4 with
            | ',' :: r5 =>
              match parseObjRest fuel' r5 with
              | some (ms, r6) => some ((String.mk key, v) :: ms, r6)
              | none => none
            | '}' :: r5 => some ([(String.mk key, v)], r5)
            | _ => none
        | _ => none
    | _ => none

end

/-- Model of json.loads on a character sequence: parse one value and require
    that only whitespace remains. -/
def pyLoadsChars (cs : List Char) : Option Json :=
  match parseValue (2 * cs.length + 4) cs with
  | some (j, r) => if skipWs r = [] then some j else none
  | none => none

def pyLoads (t : String) : Option Json := pyLoadsChars t.data

def firstIdxOf (c : Char) (cs : List Char) : Option Nat :=
  cs.findIdx? (fun a => a = c)

def lastIdxOf (c : Char) (cs : List Char) : Option Nat :=
  (cs.reverse.findIdx? (fun a => a = c)).map (fun k => cs.length - 1 - k)

/-- Model of re.search(r bracket-dot-star-bracket, text, re.DOTALL): the
    leftmost-then-greedy match runs from the first opening bracket that
    precedes the last closing bracket of the text, to that last closing
    bracket. -/
def extractBracketSpan (cs : List Char) : Option (List Char) :=
  match lastIdxOf ']' cs with
  | none => none
  | some e =>
    match firstIdxOf '[' cs with
    | none => none
    | some i => if i < e then some ((cs.drop i).take (e - i + 1)) else none

/-- The JSON-extraction step of generate_itineraries: parse the bracketed
    span when re.search finds one (a parse failure there falls back), else
    attempt to parse the whole response text. -/
def loadsAI (content : String) : Option Json :=
  match extractBracketSpan content.data with
  | some span => pyLoadsChars span
  | none => pyLoadsChars content.data

/-! ## The generation entry point (ItineraryGenerator.generate_itineraries)

    The external world of the AI path is an explicit environment: whether
    the MCP connection attempt succeeded (connect_mcp_servers catches its
    own exceptions and returns a boolean), and the agent invocation outcome
    (none models an exception raised during the awaited call; the enclosing
    try block routes it to the fallback synthesizer).  The oracle and the
    fallback synthesizer are total functions of the randomness stream, as
    in the source, so the model is total: the only failure path the source
    leaves open is an exception out of the fallback synthesizer itself,
    which the model, like the source fallback code, does not have. -/

structure GenEnv where
  connected : Bool
  agentResult : Option String

inductive GenResult where
  | parsed : Json → GenResult
  | synthesized : List Itinerary → GenResult

/-- The number of itineraries the caller receives: the length of the
    returned list (a parsed non-array is not a list of itineraries). -/
def GenResult.itineraryCount : GenResult → Nat
  | .synthesized l => l.length
  | .parsed (.arr l) => l.length
  | .parsed _ => 0

def GenResult.isSynthesized : GenResult → Bool
  | .synthesized _ => true
  | .parsed _ => false

/-- True when the AI path cannot produce a parsed result in the given
    environment: no connection, an exception during the agent call, or a
    response from which no JSON value can be extracted. -/
def GenEnv.aiPathFails (env : GenEnv) : Bool :=
  !env.connected ||
    (match env.agentResult with
     | none => true
     | some c => (loadsAI c).isNone)

/-- Model of ItineraryGenerator.generate_itineraries.  The oracle runs
    first (consuming randomness); a failed connection, an agent exception,
    or a JSON parse failure each routes to the fallback synthesizer, which
    recomputes the oracle data from the post-oracle randomness state, as in
    the source.  The gemini and google-maps keys do not influence the
    modelled behaviour. -/
def generate_itineraries (env : GenEnv) (destination : String) (num_days : Nat)
    (preferences : String) (budget : Int) (gemini_key google_maps_key : String)
    (num_itineraries : Nat) (start_date : Nat) (s : RandState) : GenResult :=
  let wfp := get_weather_forecast destination start_date num_days s
  let dap := check_natural_disasters destination start_date wfp.2
  if env.connected = false then
    GenResult.synthesized
      (generate_fallback_itineraries destination num_days preferences budget
        num_itineraries start_date dap.2).1
  else
    match env.agentResult with
    | none =>
      GenResult.synthesized
        (generate_fallback_itineraries destination num_days preferences budget
          num_itineraries start_date dap.2).1
    | some content =>
      match loadsAI content with
      | some j => GenResult.parsed j
      | none =>
        GenResult.synthesized
          (generate_fallback_itineraries destination num_days preferences budget
            num_itineraries start_date dap.2).1

/-! ## The submit handler of the planner page (main.py, trip_planning_form)

    On submit, the only validation the source performs is the
    destination-empty check; otherwise generation begins immediately with
    num_itineraries = 3 and the preference text extended with the selected
    travel styles. -/

inductive SubmitOutcome where
  | validationError : String → SubmitOutcome
  | generationRan : GenResult → SubmitOutcome

def SubmitOutcome.ranGeneration : SubmitOutcome → Bool
  | .validationError _ => false
  | .generationRan _ => true

def itinerary_planner_submit (env : GenEnv) (destination : String)
    (num_days : Nat) (budget : Int) (travel_style : List String)
    (preferences : String) (gemini_key google_maps_key : String)
    (start_date : Nat) (s : RandState) : SubmitOutcome :=
  if destination = "" then SubmitOutcome.validationError "Please enter a destination"
  else
    SubmitOutcome.generationRan
      (generate_itineraries env destination num_days
        (preferences ++ " " ++ pyJoin ", " travel_style) budget
        gemini_key google_maps_key 3 start_date s)

/-! ## Decidable property checkers used by the claim theorems -/

/-- Day coverage: keys are exactly Day 1 .. Day num_days in order, and each
    day holds exactly 2 activities. -/
def checkDays (nd : Nat) (it : Itinerary) : Bool :=
  (it.daily_itinerary.map Prod.fst ==
      (List.range nd).map (fun k => "Day " ++ toString (k + 1)))
    && it.daily_itinerary.all (fun p => p.2.length == 2)

/-- Weather-alternative consistency of one activity against the condition of
    its day: nonempty iff the name is an indoor_alternatives key and the
    condition is Rainy or Stormy, and equal to the mapped name when set. -/
def checkActAlt (wcond : String) (a : Activity) : Bool :=
  if (indoor_alternatives a.name).isSome && (wcond == "Rainy" || wcond == "Stormy") then
    decide (a.weather_alternative ≠ "")
      && (a.weather_alternative == (indoor_alternatives a.name).getD "")
  else a.weather_alternative == ""

/-- Walk the day entries in order, checking each activity against the
    forecast condition of its date. -/
def checkDayListAlt (wf : List (Nat × DayForecast)) :
    Nat → List (String × List Activity) → Bool
  | _, [] => true
  | date, p :: rest =>
    p.2.all (fun a => checkActAlt (dayCondition wf date) a)
      && checkDayListAlt wf (date + 1) rest

def checkItineraryAlt (wf : List (Nat × DayForecast)) (sd : Nat)
    (it : Itinerary) : Bool :=
  checkDayListAlt wf sd it.daily_itinerary

def checkBudget (budget : Int) (it : Itinerary) : Bool :=
  decide ((it.total_cost : ℚ) ≤ (budget : ℚ) * (9 / 10))

/-- Cost composition: the total cost is the single flight price plus the
    nightly price times the day count, and the accommodation total is the
    nightly price times the day count (activity costs appear nowhere). -/
def checkCost (nd : Nat) (it : Itinerary) : Bool :=
  match it.flight_options, it.accommodation_options with
  | [f], [a] =>
    (it.total_cost == f.price + a.price_per_night * (nd : Int))
      && (a.total_price == a.price_per_night * (nd : Int))
  | _, _ => false

/-- The deterministic time slots of the two activities of a day. -/
def checkDayTimes (acts : List Activity) : Bool :=
  match acts with
  | [a0, a1] =>
    (a0.start_time == "9:00") && (a0.end_time == "12:00")
      && (a1.start_time == "13:00") && (a1.end_time == "16:00")
  | _ => false

def checkTimes (it : Itinerary) : Bool :=
  it.daily_itinerary.all (fun p => checkDayTimes p.2)

/-- The data-model validity of one itinerary: day coverage, nonnegative
    total cost, weather-alternative consistency. -/
def checkValidItinerary (nd : Nat) (wf : List (Nat × DayForecast)) (sd : Nat)
    (it : Itinerary) : Bool :=
  checkDays nd it && decide (0 ≤ it.total_cost) && checkItineraryAlt wf sd it

/-- Temperature-band check of one forecast entry: the high is drawn inside
    the band of its condition, and the low inside the band shifted down by
    15 at the bottom and 10 at the top. -/
def forecastBandCheck (df : DayForecast) : Bool :=
  decide ((temperatures df.condition).1 ≤ df.high)
    && decide (df.high ≤ (temperatures df.condition).2)
    && decide ((temperatures df.condition).1 - 15 ≤ df.low)
    && decide (df.low ≤ (temperatures df.condition).2 - 10)

/-- The start time of the first activity of the first day of the first
    itinerary, when present. -/
def firstStartTime (its : List Itinerary) : Option String :=
  match its with
  | it :: _ =>
    match it.daily_itinerary with
    | (_, a :: _) :: _ => some a.start_time
    | _ => none
  | [] => none

/-- A concrete all-zero randomness stream for instance theorems. -/
def rng0 : RandState := { stream := fun _ => 0, idx := 0 }

/-- A stream whose third draw is 25: the first forecast day draws condition
    Sunny, high 75 and low 85. -/
def rngLowHigh : RandState := { stream := fun i => if i = 2 then 25 else 0, idx := 0 }

/-! ## Helper lemmas -/

theorem randint_lower (lo hi : Int) (s : RandState) :
    lo ≤ (randint lo hi s).1 := by
  unfold randint nextNat
  simp only []
  omega

theorem randint_upper (lo hi : Int) (s : RandState) (h : lo ≤ hi) :
    (randint lo hi s).1 ≤ hi := by
  unfold randint nextNat
  simp only []
  have hk : 0 < (hi - lo + 1).toNat := by omega
  have hm := Nat.mod_lt (s.stream s.idx) hk
  omega

theorem pyInt_of_nonneg (q : ℚ) (h : 0 ≤ q) : pyInt q = ⌊q⌋ := if_pos h

theorem pyInt_le (q : ℚ) (h : 0 ≤ q) : ((pyInt q : Int) : ℚ) ≤ q := by
  rw [pyInt_of_nonneg q h]
  exact Int.floor_le q

theorem pyInt_nonneg (q : ℚ) (h : 0 ≤ q) : 0 ≤ pyInt q := by
  rw [pyInt_of_nonneg q h]
  exact Int.floor_nonneg.mpr h

theorem budgetFit_le (budget : Int) (nd : Nat) (fp0 hp0 : Int)
    (hb : 0 < budget) (hfp : 0 ≤ fp0) (hhp : 0 ≤ hp0) :
    (((budgetFit budget nd fp0 hp0).2.2 : Int) : ℚ) ≤ (budget : ℚ) * (9 / 10) := by
  unfold budgetFit
  by_cases h : (((fp0 + hp0 * (nd : Int) : Int) : ℚ)) > (budget : ℚ) * (9 / 10)
  · simp only [if_pos h]
    push_cast at h ⊢
    set T : ℚ := (fp0 : ℚ) + (hp0 : ℚ) * (nd : ℚ) with hT
    set S : ℚ := ((budget : ℚ) * (9 / 10)) / T with hS
    have hb' : (0 : ℚ) < (budget : ℚ) * (9 / 10) := by
      have hbq : (0 : ℚ) < (budget : ℚ) := by exact_mod_cast hb
      positivity
    have htc : (0 : ℚ) < T := lt_trans hb' h
    have hsc : 0 < S := div_pos hb' htc
    have hfp' : (0 : ℚ) ≤ (fp0 : ℚ) := by exact_mod_cast hfp
    have hhp' : (0 : ℚ) ≤ (hp0 : ℚ) := by exact_mod_cast hhp
    have h1 : ((pyInt ((fp0 : ℚ) * S) : Int) : ℚ) ≤ (fp0 : ℚ) * S :=
      pyInt_le _ (mul_nonneg hfp' hsc.le)
    have h2 : ((pyInt ((hp0 : ℚ) * S) : Int) : ℚ) ≤ (hp0 : ℚ) * S :=
      pyInt_le _ (mul_nonneg hhp' hsc.le)
    have h3 : ((pyInt ((hp0 : ℚ) * S) : Int) : ℚ) * (nd : ℚ) ≤ ((hp0 : ℚ) * S) * (nd : ℚ) := by
      apply mul_le_mul_of_nonneg_right h2
      positivity
    calc ((pyInt ((fp0 : ℚ) * S) : Int) : ℚ) + ((pyInt ((hp0 : ℚ) * S) : Int) : ℚ) * (nd : ℚ)
        ≤ (fp0 : ℚ) * S + ((hp0 : ℚ) * S) * (nd : ℚ) := add_le_add h1 h3
      _ = S * T := by rw [hT]; ring
      _ = (budget : ℚ) * (9 / 10) := by rw [hS]; exact div_mul_cancel₀ _ htc.ne'
  · simp only [if_neg h]
    exact le_of_not_lt h

theorem budgetFit_nonneg (budget : Int) (nd : Nat) (fp0 hp0 : Int)
    (hb : 0 < budget) (hfp : 0 ≤ fp0) (hhp : 0 ≤ hp0) :
    0 ≤ (budgetFit budget nd fp0 hp0).2.2 := by
  unfold budgetFit
  by_cases h : (((fp0 + hp0 * (nd : Int) : Int) : ℚ)) > (budget : ℚ) * (9 / 10)
  · simp only [if_pos h]
    push_cast at h ⊢
    set T : ℚ := (fp0 : ℚ) + (hp0 : ℚ) * (nd : ℚ) with hT
    set S : ℚ := ((budget : ℚ) * (9 / 10)) / T with hS
    have hb' : (0 : ℚ) < (budget : ℚ) * (9 / 10) := by
      have hbq : (0 : ℚ) < (budget : ℚ) := by exact_mod_cast hb
      positivity
    have htc : (0 : ℚ) < T := lt_trans hb' h
    have hsc : 0 < S := div_pos hb' htc
    have hfp' : (0 : ℚ) ≤ (fp0 : ℚ) := by exact_mod_cast hfp
    have hhp' : (0 : ℚ) ≤ (hp0 : ℚ) := by exact_mod_cast hhp
    have h1 : 0 ≤ pyInt ((fp0 : ℚ) * S) := pyInt_nonneg _ (mul_nonneg hfp' hsc.le)
    have h2 : 0 ≤ pyInt ((hp0 : ℚ) * S) := pyInt_nonneg _ (mul_nonneg hhp' hsc.le)
    have h3 : (0 : Int) ≤ (nd : Int) := Int.natCast_nonneg nd
    have h4 : (0 : Int) ≤ pyInt ((hp0 : ℚ) * S) * (nd : Int) := mul_nonneg h2 h3
    omega
  · simp only [if_neg h]
    have h3 : (0 : Int) ≤ hp0 * (nd : Int) := mul_nonneg hhp (Int.natCast_nonneg nd)
    omega

theorem budgetFit_tc_eq (budget : Int) (nd : Nat) (fp0 hp0 : Int) :
    (budgetFit budget nd fp0 hp0).2.2
      = (budgetFit budget nd fp0 hp0).1 + (budgetFit budget nd fp0 hp0).2.1 * (nd : Int) := by
  unfold budgetFit
  by_cases h : (((fp0 + hp0 * (nd : Int) : Int) : ℚ)) > (budget : ℚ) * (9 / 10)
  · simp only [if_pos h]
  · simp only [if_neg h]

theorem indoor_alternatives_ne_empty (name alt : String)
    (h : indoor_alternatives name = some alt) : alt ≠ "" := by
  unfold indoor_alternatives at h
  split_ifs at h <;> simp_all <;> subst h <;> decide

theorem checkActAlt_of_waltOf (wcond : String) (a : Activity)
    (h : a.weather_alternative = waltOf wcond a.name) : checkActAlt wcond a = true := by
  unfold checkActAlt
  unfold waltOf at h
  cases hia : indoor_alternatives a.name with
  | none =>
    rw [hia] at h
    simp [hia, h]
  | some alt =>
    rw [hia] at h
    have halt := indoor_alternatives_ne_empty a.name alt hia
    by_cases hr : (wcond == "Rainy" || wcond == "Stormy") = true
    · rw [hr] at h
      simp only [if_pos rfl] at h
      simp [hia, hr, h, halt]
    · rw [Bool.not_eq_true] at hr
      rw [hr] at h
      simp only [Bool.false_eq_true, if_neg] at h
      simp [hia, hr, h]

theorem pychoice_mem {α : Type} [Inhabited α] (l : List α) (s : RandState)
    (h : l ≠ []) : (pychoice l s).1 ∈ l := by
  unfold pychoice nextNat
  simp only []
  have hl : 0 < l.length := List.length_pos.mpr h
  have hm : (s.stream s.idx) % l.length < l.length := Nat.mod_lt _ hl
  rw [List.getD_eq_getElem l default hm]
  exact List.getElem_mem hm

theorem daysLoop_map_fst (dest focus : String) (wf : List (Nat × DayForecast)) :
    ∀ (n day date : Nat) (s : RandState),
      ((daysLoop dest focus wf day n date s).1).map Prod.fst
        = (List.range n).map (fun k => "Day " ++ toString (day + k)) := by
  intro n
  induction n with
  | zero => intro day date s; simp [daysLoop]
  | succ m ih =>
    intro day date s
    rw [List.range_succ_eq_map]
    simp only [daysLoop, List.map_cons, List.map_map]
    rw [ih]
    congr 1
    apply List.map_congr_left
    intro k _
    simp only [Function.comp_apply]
    have hk : day + 1 + k = day + (k + 1) := by omega
    rw [hk]

theorem daysLoop_len2 (dest focus : String) (wf : List (Nat × DayForecast)) :
    ∀ (n day date : Nat) (s : RandState),
      ((daysLoop dest focus wf day n date s).1).all (fun p => p.2.length == 2) = true := by
  intro n
  induction n with
  | zero => intro day date s; simp [daysLoop]
  | succ m ih =>
    intro day date s
    simp [daysLoop, genDayActivities, ih]

theorem checkActAlt_genActivity (dest focus wcond : String) (j : Nat) (s : RandState) :
    checkActAlt wcond (genActivity dest focus wcond j s).1 = true := by
  apply checkActAlt_of_waltOf
  rfl

theorem daysLoop_alt (dest focus : String) (wf : List (Nat × DayForecast)) :
    ∀ (n day date : Nat) (s : RandState),
      checkDayListAlt wf date (daysLoop dest focus wf day n date s).1 = true := by
  intro n
  induction n with
  | zero => intro day date s; simp [daysLoop, checkDayListAlt]
  | succ m ih =>
    intro day date s
    simp only [daysLoop, checkDayListAlt, genDayActivities, List.all_cons, List.all_nil]
    simp [checkActAlt_genActivity, ih]

theorem daysLoop_times (dest focus : String) (wf : List (Nat × DayForecast)) :
    ∀ (n day date : Nat) (s : RandState),
      ((daysLoop dest focus wf day n date s).1).all (fun p => checkDayTimes p.2) = true := by
  intro n
  induction n with
  | zero => intro day date s; simp [daysLoop]
  | succ m ih =>
    intro day date s
    simp only [daysLoop, genDayActivities, List.all_cons]
    rw [ih]
    simp only [Bool.and_true]
    unfold genActivity checkDayTimes
    simp only []
    decide

theorem fallbackLoop_length (dest : String) (nd : Nat) (prefs : String)
    (budget : Int) (sd : Nat) (wf : List (Nat × DayForecast)) (alerts : List String) :
    ∀ (n : Nat) (s : RandState),
      ((fallbackLoop dest nd prefs budget sd wf alerts n s).1).length = n := by
  intro n
  induction n with
  | zero => intro s; simp [fallbackLoop]
  | succ m ih => intro s; simp [fallbackLoop, ih]

theorem fallbackLoop_all (dest : String) (nd : Nat) (prefs : String)
    (budget : Int) (sd : Nat) (wf : List (Nat × DayForecast)) (alerts : List String)
    (check : Itinerary → Bool)
    (h : ∀ s : RandState, check (genOneItinerary dest nd prefs budget sd wf alerts s).1 = true) :
    ∀ (n : Nat) (s : RandState),
      ((fallbackLoop dest nd prefs budget sd wf alerts n s).1).all check = true := by
  intro n
  induction n with
  | zero => intro s; simp [fallbackLoop]
  | succ m ih => intro s; simp [fallbackLoop, h, ih]

theorem genOne_checkDays (dest prefs : String) (nd : Nat) (budget : Int)
    (sd : Nat) (wf : List (Nat × DayForecast)) (alerts : List String) (s : RandState) :
    checkDays nd (genOneItinerary dest nd prefs budget sd wf alerts s).1 = true := by
  unfold genOneItinerary checkDays
  simp only []
  rw [daysLoop_map_fst, daysLoop_len2]
  simp only [Bool.and_true]
  rw [beq_iff_eq]
  apply List.map_congr_left
  intro k _
  have hk : 1 + k = k + 1 := by omega
  rw [hk]

theorem genOne_checkAlt (dest prefs : String) (nd : Nat) (budget : Int)
    (sd : Nat) (wf : List (Nat × DayForecast)) (alerts : List String) (s : RandState) :
    checkItineraryAlt wf sd (genOneItinerary dest nd prefs budget sd wf alerts s).1 = true := by
  unfold genOneItinerary checkItineraryAlt
  simp only []
  exact daysLoop_alt dest _ wf nd 1 sd _

theorem genOne_checkTimes (dest prefs : String) (nd : Nat) (budget : Int)
    (sd : Nat) (wf : List (Nat × DayForecast)) (alerts : List String) (s : RandState) :
    checkTimes (genOneItinerary dest nd prefs budget sd wf alerts s).1 = true := by
  unfold genOneItinerary checkTimes
  simp only []
  exact daysLoop_times dest _ wf nd 1 sd _

theorem genOne_safety (dest prefs : String) (nd : Nat) (budget : Int)
    (sd : Nat) (wf : List (Nat × DayForecast)) (alerts : List String) (s : RandState) :
    (genOneItinerary dest nd prefs budget sd wf alerts s).1.safety_recommendations
      = pyJoin " " alerts := rfl

theorem genOne_checkCost (dest prefs : String) (nd : Nat) (budget : Int)
    (sd : Nat) (wf : List (Nat × DayForecast)) (alerts : List String) (s : RandState) :
    checkCost nd (genOneItinerary dest nd prefs budget sd wf alerts s).1 = true := by
  unfold genOneItinerary checkCost
  simp only []
  rw [budgetFit_tc_eq]
  simp

theorem genOne_checkBudget (dest prefs : String) (nd : Nat) (budget : Int)
    (sd : Nat) (wf : List (Nat × DayForecast)) (alerts : List String) (s : RandState)
    (hb : 0 < budget) :
    checkBudget budget (genOneItinerary dest nd prefs budget sd wf alerts s).1 = true := by
  unfold genOneItinerary checkBudget
  simp only [decide_eq_true_eq]
  apply budgetFit_le budget nd _ _ hb
  · have := randint_lower 200 600 (pychoice focuses s).2
    omega
  · have := randint_lower 80 300 (randint 200 600 (pychoice focuses s).2).2
    omega

theorem genOne_nonneg (dest prefs : String) (nd : Nat) (budget : Int)
    (sd : Nat) (wf : List (Nat × DayForecast)) (alerts : List String) (s : RandState)
    (hb : 0 < budget) :
    decide (0 ≤ (genOneItinerary dest nd prefs budget sd wf alerts s).1.total_cost) = true := by
  unfold genOneItinerary
  simp only [decide_eq_true_eq]
  apply budgetFit_nonneg budget nd _ _ hb
  · have := randint_lower 200 600 (pychoice focuses s).2
    omega
  · have := randint_lower 80 300 (randint 200 600 (pychoice focuses s).2).2
    omega

theorem temperatures_le (c : String) : (temperatures c).1 ≤ (temperatures c).2 := by
  unfold temperatures
  split_ifs <;> decide

theorem forecastLoop_band :
    ∀ (n date : Nat) (s : RandState),
      ((forecastLoop n date s).1).all (fun p => forecastBandCheck p.2) = true := by
  intro n
  induction n with
  | zero => intro date s; simp [forecastLoop]
  | succ m ih =>
    intro date s
    simp only [forecastLoop, List.all_cons]
    rw [ih]
    simp only [Bool.and_true]
    unfold forecastBandCheck
    simp only []
    have hle := temperatures_le (pychoice weather_conditions s).1
    have h1 := randint_lower (temperatures (pychoice weather_conditions s).1).1
      (temperatures (pychoice weather_conditions s).1).2 (pychoice weather_conditions s).2
    have h2 := randint_upper (temperatures (pychoice weather_conditions s).1).1
      (temperatures (pychoice weather_conditions s).1).2 (pychoice weather_conditions s).2 hle
    have h3 := randint_lower ((temperatures (pychoice weather_conditions s).1).1 - 15)
      ((temperatures (pychoice weather_conditions s).1).2 - 10)
      (randint (temperatures (pychoice weather_conditions s).1).1
        (temperatures (pychoice weather_conditions s).1).2 (pychoice weather_conditions s).2).2
    have h4 := randint_upper ((temperatures (pychoice weather_conditions s).1).1 - 15)
      ((temperatures (pychoice weather_conditions s).1).2 - 10)
      (randint (temperatures (pychoice weather_conditions s).1).1
        (temperatures (pychoice weather_conditions s).1).2 (pychoice weather_conditions s).2).2
      (by omega)
    simp [h1, h2, h3, h4]

/-! ## Claim theorems -/

/-- Claim C1: for every fallback-generated itinerary (any destination,
    num_days at least 1, budget positive, any randomness), total_cost is at
    most 0.9 x budget: when the unscaled total exceeds 0.9 x budget,
    scaling both prices by (0.9 x budget)/total and truncating to integers,
    then recomputing, yields a total at most 0.9 x budget; otherwise no
    scaling occurs and the bound holds by the branch condition. -/
theorem C1_budget_invariant (dest prefs : String) (nd : Nat) (budget : Int)
    (ni sd : Nat) (s : RandState) (hnd : 1 ≤ nd) (hb : 0 < budget) :
    ((generate_fallback_itineraries dest nd prefs budget ni sd s).1).all
      (checkBudget budget) = true := by
  unfold generate_fallback_itineraries
  simp only []
  apply fallbackLoop_all
  intro sx
  exact genOne_checkBudget dest prefs nd budget sd _ _ sx hb

/-- Witness: the budget invariant instantiated at a concrete request. -/
theorem C1_budget_invariant_witness :
    ((generate_fallback_itineraries "Paris" 3 "culture" 1500 3 0 rng0).1).all
      (checkBudget 1500) = true :=
  C1_budget_invariant "Paris" "culture" 3 1500 3 0 rng0 (by decide) (by decide)

/-- Claim C2 counterexample: with the agent responding with the JSON array
    text of two numbers, a request for 3 itineraries returns a parsed value
    holding 2 elements, not 3 valid itineraries; the AI path performs no
    count or validity check on the extracted array. -/
theorem C2_counterexample :
    (generate_itineraries { connected := true, agentResult := some "[1, 2]" }
        "Paris" 3 "beaches" 1500 "gk" "mk" 3 0 rng0).itineraryCount = 2
    ∧ (2 : Nat) ≠ 3 := by
  constructor
  · decide
  · decide

/-- Claim C2 (amended): a request for N itineraries yields exactly N
    itineraries satisfying the data-model invariants on the fallback path
    (day coverage, nonnegative total cost, weather-alternative condition,
    for positive budget); the AI path returns whatever JSON-array value
    extraction produces, with no count or validity guarantee. -/
theorem C2_fallback_count_valid (dest prefs : String) (nd : Nat) (budget : Int)
    (ni sd : Nat) (s : RandState) (hb : 0 < budget) :
    ((generate_fallback_itineraries dest nd prefs budget ni sd s).1).length = ni
    ∧ ((generate_fallback_itineraries dest nd prefs budget ni sd s).1).all
        (checkValidItinerary nd (get_weather_forecast dest sd nd s).1 sd) = true := by
  constructor
  · unfold generate_fallback_itineraries
    simp only []
    exact fallbackLoop_length dest nd prefs budget sd _ _ ni _
  · unfold generate_fallback_itineraries
    simp only []
    apply fallbackLoop_all
    intro sx
    unfold checkValidItinerary
    rw [genOne_checkDays, genOne_nonneg dest prefs nd budget sd _ _ sx hb, genOne_checkAlt]
    rfl

/-- Witness: the amended claim C2 at a concrete request. -/
theorem C2_fallback_count_valid_witness :
    ((generate_fallback_itineraries "Paris" 3 "beaches" 1500 3 0 rng0).1).length = 3
    ∧ ((generate_fallback_itineraries "Paris" 3 "beaches" 1500 3 0 rng0).1).all
        (checkValidItinerary 3 (get_weather_forecast "Paris" 0 3 rng0).1 0) = true :=
  C2_fallback_count_valid "Paris" "beaches" 3 1500 3 0 rng0 (by decide)

/-- Claim C3: generate_itineraries never fails outward: whenever the AI path
    cannot deliver (no connection, an exception during the agent call, or a
    response from which no JSON parses), the call returns exactly the
    fallback synthesizer output computed from the post-oracle randomness
    state, and that output holds num_itineraries itineraries.  The model,
    like the source fallback code, is total, so the only conceivable
    propagation is out of the fallback synthesizer itself. -/
theorem C3_never_fails (env : GenEnv) (dest prefs gk mk : String) (nd : Nat)
    (budget : Int) (ni sd : Nat) (s : RandState)
    (h : env.aiPathFails = true) :
    generate_itineraries env dest nd prefs budget gk mk ni sd s
      = GenResult.synthesized
          (generate_fallback_itineraries dest nd prefs budget ni sd
            (check_natural_disasters dest sd (get_weather_forecast dest sd nd s).2).2).1
    ∧ ((generate_fallback_itineraries dest nd prefs budget ni sd
          (check_natural_disasters dest sd (get_weather_forecast dest sd nd s).2).2).1).length
        = ni := by
  constructor
  · unfold generate_itineraries
    rcases env with ⟨c, ar⟩
    unfold GenEnv.aiPathFails at h
    cases c
    · simp
    · simp only [Bool.not_true, Bool.false_or] at h
      cases ar with
      | none => simp
      | some content =>
        simp only [] at h
        rw [Option.isNone_iff_eq_none] at h
        simp [h]
  · unfold generate_fallback_itineraries
    simp only []
    exact fallbackLoop_length dest nd prefs budget sd _ _ ni _

/-- Witness: the no-JSON response of the claim text routes to the fallback
    path and yields the requested number of itineraries. -/
theorem C3_never_fails_witness :
    generate_itineraries { connected := true, agentResult := some "no json here" }
        "Paris" 3 "beaches" 1500 "gk" "mk" 3 0 rng0
      = GenResult.synthesized
          (generate_fallback_itineraries "Paris" 3 "beaches" 1500 3 0
            (check_natural_disasters "Paris" 0 (get_weather_forecast "Paris" 0 3 rng0).2).2).1
    ∧ ((generate_fallback_itineraries "Paris" 3 "beaches" 1500 3 0
          (check_natural_disasters "Paris" 0 (get_weather_forecast "Paris" 0 3 rng0).2).2).1).length
        = 3 :=
  C3_never_fails { connected := true, agentResult := some "no json here" }
    "Paris" "beaches" "gk" "mk" 3 1500 3 0 rng0 (by decide)

/-- Claim C4: in every fallback-generated itinerary, an activity has a
    nonempty weather_alternative exactly when its name is a key of the
    indoor-alternatives mapping and the shared forecast condition of its day
    is Rainy or Stormy, and the nonempty value is the mapped indoor
    alternative name. -/
theorem C4_weather_alternative_iff (dest prefs : String) (nd : Nat)
    (budget : Int) (ni sd : Nat) (s : RandState) :
    ((generate_fallback_itineraries dest nd prefs budget ni sd s).1).all
      (checkItineraryAlt (get_weather_forecast dest sd nd s).1 sd) = true := by
  unfold generate_fallback_itineraries
  simp only []
  apply fallbackLoop_all
  intro sx
  exact genOne_checkAlt dest prefs nd budget sd _ _ sx

/-- Claim C5: every fallback-generated itinerary carries exactly num_days
    day entries, labeled Day 1 through Day num_days in chronological
    insertion order, with exactly 2 activities per day. -/
theorem C5_day_coverage (dest prefs : String) (nd : Nat) (budget : Int)
    (ni sd : Nat) (s : RandState) (hnd : 1 ≤ nd) :
    ((generate_fallback_itineraries dest nd prefs budget ni sd s).1).all
      (checkDays nd) = true := by
  unfold generate_fallback_itineraries
  simp only []
  apply fallbackLoop_all
  intro sx
  exact genOne_checkDays dest prefs nd budget sd _ _ sx

/-- Witness: day coverage at a concrete request. -/
theorem C5_day_coverage_witness :
    ((generate_fallback_itineraries "Paris" 3 "culture" 1500 3 0 rng0).1).all
      (checkDays 3) = true :=
  C5_day_coverage "Paris" "culture" 3 1500 3 0 rng0 (by decide)

/-- Claim C6: in every fallback-generated itinerary, total_cost equals the
    single flight option price plus the nightly price times num_days, the
    accommodation total_price equals the nightly price times num_days, and
    no activity cost enters total_cost. -/
theorem C6_cost_composition (dest prefs : String) (nd : Nat) (budget : Int)
    (ni sd : Nat) (s : RandState) :
    ((generate_fallback_itineraries dest nd prefs budget ni sd s).1).all
      (checkCost nd) = true := by
  unfold generate_fallback_itineraries
  simp only []
  apply fallbackLoop_all
  intro sx
  exact genOne_checkCost dest prefs nd budget sd _ _ sx

/-- Claim C7 counterexample: a submit with a nonempty destination but a day
    count of 0 and a budget of 0 (both invalid per the claim) is not
    rejected: generation runs.  The source validates only the
    destination-empty case. -/
theorem C7_counterexample :
    (itinerary_planner_submit { connected := false, agentResult := none }
        "Paris" 0 0 [] "p" "gk" "mk" 0 rng0).ranGeneration = true := by
  rfl

/-- Claim C7 (amended): only an empty destination is rejected before
    generation, with the error text of the source; for any nonempty
    destination the submit handler starts generation regardless of the day
    count or budget value (the UI sliders, not the code, bound those). -/
theorem C7_validation_amended (env : GenEnv) (d : String) (nd : Nat)
    (budget : Int) (ts : List String) (prefs gk mk : String) (sd : Nat)
    (s : RandState) :
    (d = "" → itinerary_planner_submit env d nd budget ts prefs gk mk sd s
        = SubmitOutcome.validationError "Please enter a destination")
    ∧ (d ≠ "" → (itinerary_planner_submit env d nd budget ts prefs gk mk sd s).ranGeneration
        = true) := by
  constructor
  · intro h
    unfold itinerary_planner_submit
    simp [h]
  · intro h
    unfold itinerary_planner_submit
    simp only [if_neg h]
    rfl

/-- Witness: both branches of the amended claim C7 at concrete inputs. -/
theorem C7_validation_amended_witness :
    itinerary_planner_submit { connected := false, agentResult := none }
        "" 7 1000 [] "p" "gk" "mk" 0 rng0
      = SubmitOutcome.validationError "Please enter a destination"
    ∧ (itinerary_planner_submit { connected := false, agentResult := none }
        "Paris" 7 1000 [] "p" "gk" "mk" 0 rng0).ranGeneration = true :=
  ⟨(C7_validation_amended { connected := false, agentResult := none }
      "" 7 1000 [] "p" "gk" "mk" 0 rng0).1 rfl,
   (C7_validation_amended { connected := false, agentResult := none }
      "Paris" 7 1000 [] "p" "gk" "mk" 0 rng0).2 (by decide)⟩

/-- Claim C8 counterexample: the first activity of a fallback itinerary has
    start_time rendered as 9:00 by the hour format of the source, not the
    zero-padded 09:00 the claim asserts. -/
theorem C8_counterexample :
    firstStartTime (generate_fallback_itineraries "Paris" 1 "food" 1000 1 0 rng0).1
      = some "9:00"
    ∧ ("9:00" : String) ≠ "09:00" := by
  constructor
  · decide
  · decide

/-- Claim C8 (amended): every fallback-generated day holds exactly two
    activities whose times are the deterministic slots 9+4j to 12+4j for
    slot j in 0, 1: the first renders as 9:00 to 12:00 (hour not
    zero-padded), the second as 13:00 to 16:00, the end hour exceeding the
    start hour in every slot. -/
theorem C8_times_amended (dest prefs : String) (nd : Nat) (budget : Int)
    (ni sd : Nat) (s : RandState) :
    ((generate_fallback_itineraries dest nd prefs budget ni sd s).1).all
      checkTimes = true := by
  unfold generate_fallback_itineraries
  simp only []
  apply fallbackLoop_all
  intro sx
  exact genOne_checkTimes dest prefs nd budget sd _ _ sx

/-- Claim C9: within one fallback-synthesis call the forecast and the alert
    list are computed once, before the itinerary loop: every generated
    itinerary carries the same safety_recommendations string, the joined
    pre-loop alert list, and every weather-alternative decision is taken
    against the single pre-loop forecast. -/
theorem C9_shared_oracle (dest prefs : String) (nd : Nat) (budget : Int)
    (ni sd : Nat) (s : RandState) :
    ((generate_fallback_itineraries dest nd prefs budget ni sd s).1).all
      (fun it =>
        (it.safety_recommendations ==
            pyJoin " " (check_natural_disasters dest sd (get_weather_forecast dest sd nd s).2).1)
          && checkItineraryAlt (get_weather_forecast dest sd nd s).1 sd it) = true := by
  unfold generate_fallback_itineraries
  simp only []
  apply fallbackLoop_all
  intro sx
  rw [genOne_safety, genOne_checkAlt]
  simp

/-- Claim C10: the oracle draws each high inside the condition band and each
    low inside the band shifted down by 15 at the bottom and 10 at the top,
    and these draws are independent, so low is not guaranteed to stay below
    high: a concrete randomness stream produces a day with high 75 and
    low 85. -/
theorem C10_low_can_exceed_high :
    (∀ (dest : String) (sd nd : Nat) (s : RandState),
      ((get_weather_forecast dest sd nd s).1).all (fun p => forecastBandCheck p.2) = true)
    ∧ ((get_weather_forecast "Paris" 0 1 rngLowHigh).1).any
        (fun p => decide (p.2.high < p.2.low)) = true := by
  constructor
  · intro dest sd nd s
    exact forecastLoop_band nd sd s
  · decide
